import Mathlib

/-!
Shallow embedding of the Canvas / Blitter / PathBuilder rendering core of the
RISC OS Puzzles front end (src/canvas.c, src/blitter.c, src/game_draw.c),
together with theorems settling the specification claims about it.

Machine integers are modelled as ℕ / ℤ; C `int` division is `Int.tdiv`
(truncation toward zero), `&&` masks on non-negative ints are `emod`, and C
`float` colour channels are modelled as ℚ.  A sprite palette is a list of 256
slots, a slot being `none` until the code writes it (freshly malloc'd palette
memory is garbage, and a claim speaks about entries being left undefined).
The OS calls (osspriteop, draw) are modelled by their visible effect on the
embedded state; where an OS call can fail independently of the arguments the
outcome is an explicit `Bool`/`Option` parameter of the embedded function.
-/

set_option maxRecDepth 40000

namespace Puzzles

/-- CANVAS_AREA_HEADER_SIZE: size of a sprite area header block, in bytes. -/
def CANVAS_AREA_HEADER_SIZE : ℤ := 16

/-- CANVAS_SPRITE_HEADER_SIZE: size of a sprite header block, in bytes. -/
def CANVAS_SPRITE_HEADER_SIZE : ℤ := 44

/-- CANVAS_MAX_PALETTE_ENTRIES: the size of the palette used in sprites, in entries. -/
def CANVAS_MAX_PALETTE_ENTRIES : ℕ := 256

/-- CANVAS_MAX_PALETTE_ERROR: maximum error allowed between a colour and an
existing palette entry before the colour will be added. -/
def CANVAS_MAX_PALETTE_ERROR : ℕ := 5

/-- CANVAS_GRADIENT_LENGTH: number of intermediate colours in colour gradients. -/
def CANVAS_GRADIENT_LENGTH : ℤ := 5

/-- CANVAS_PALETTE_SIZE: size of a palette in bytes (256 entries x 2 colours x 4 bytes). -/
def CANVAS_PALETTE_SIZE : ℤ := 256 * 4 * 2

/-- os_COLOUR_BLACK from OSLib: the OS colour word for black. -/
def os_COLOUR_BLACK : ℕ := 0

/-- os_COLOUR_WHITE from OSLib: the OS colour word 0xFFFFFF00. -/
def os_COLOUR_WHITE : ℕ := 0xFFFFFF00

/-- canvas_make_os_colour(r, g, b) = (r << 8) | (g << 16) | (b << 24). -/
def canvas_make_os_colour (r g b : ℕ) : ℕ :=
  (r <<< 8) ||| (g <<< 16) ||| (b <<< 24)

/-- canvas_get_os_colour_red(colour) = (colour >> 8) & 0xff. -/
def canvas_get_os_colour_red (colour : ℕ) : ℕ := (colour >>> 8) &&& 0xff

/-- canvas_get_os_colour_green(colour) = (colour >> 16) & 0xff. -/
def canvas_get_os_colour_green (colour : ℕ) : ℕ := (colour >>> 16) &&& 0xff

/-- canvas_get_os_colour_blue(colour) = (colour >> 24) & 0xff. -/
def canvas_get_os_colour_blue (colour : ℕ) : ℕ := (colour >>> 24) &&& 0xff

/-- An os_sprite_palette: 256 colour slots.  A slot is `none` while the C
palette memory at that entry has never been written (malloc garbage). The
`on` and `off` colours of an entry are always written together with the same
value by this code, so one colour word per slot suffices. -/
abbrev SpritePalette := List (Option ℕ)

/-- Contents of `palette->entries[i].on`.  Reading a slot the algorithm has
never written (C reads garbage) is given the fixed value 0; the algorithms
below only ever read slots below their running entry count, which are always
written, so the default is never observable. -/
def canvas_palette_read (p : SpritePalette) (i : ℕ) : ℕ :=
  match p[i]? with
  | some (some c) => c
  | _ => 0

/-- The defined contents of palette slot `i` (`none` = never written). -/
def palette_slot (p : SpritePalette) (i : ℕ) : Option ℕ :=
  (p[i]?).getD none

/-- canvas_set_palette_entry: writes both the on and off colour of entry
`entry`, guarded by 0 <= entry < CANVAS_MAX_PALETTE_ENTRIES. -/
def canvas_set_palette_entry (p : SpritePalette) (entry : ℕ) (colour : ℕ) : SpritePalette :=
  if entry < CANVAS_MAX_PALETTE_ENTRIES then p.set entry (some colour) else p

/-- One game colour channel as quantized by canvas_set_palette_game_colours:
`(int) (c * 0xff)`, the C cast truncating toward zero.  On the rational
channel c = num/den this is the t-division of num * 255 by den (writing the
product this way keeps the definition kernel-evaluable; see
canvas_quantize_channel_eq_floor for the floor characterisation).  The
`toNat` is exact for channels in [0, 1], the range the midend supplies. -/
def canvas_quantize_channel (q : ℚ) : ℕ :=
  (Int.tdiv (q.num * 0xff) (q.den : ℤ)).toNat

/-- The palette colour built from game colour number `entry` of the supplied
float array (three consecutive channels starting at index `entry * 3`). -/
def canvas_game_colour (colours : ℕ → ℚ) (entry : ℕ) : ℕ :=
  canvas_make_os_colour
    (canvas_quantize_channel (colours (entry * 3)))
    (canvas_quantize_channel (colours (entry * 3 + 1)))
    (canvas_quantize_channel (colours (entry * 3 + 2)))

/-- The copying loop of canvas_set_palette_game_colours: for
`entry = 0 .. m-1`, write game colour `entry` at the running entry count. -/
def canvas_game_colours_loop (colours : ℕ → ℚ) (p : SpritePalette) (k m : ℕ) :
    SpritePalette × ℕ :=
  (List.range m).foldl
    (fun st entry =>
      (canvas_set_palette_entry st.1 st.2 (canvas_game_colour colours entry), st.2 + 1))
    (p, k)

/-- canvas_set_palette_game_colours: copy `number_of_colours` quantized game
colours into the palette starting at `palette_entries`, after the range
guards of the source.  The float array is a total function (a C pointer). -/
def canvas_set_palette_game_colours (p : SpritePalette) (palette_entries : ℕ)
    (colours : ℕ → ℚ) (number_of_colours : ℤ) : SpritePalette × ℕ :=
  if CANVAS_MAX_PALETTE_ENTRIES ≤ palette_entries then (p, palette_entries)
  else if number_of_colours < 0 ∨
      (CANVAS_MAX_PALETTE_ENTRIES : ℤ) - (palette_entries : ℤ) ≤ number_of_colours then
    (p, palette_entries)
  else
    canvas_game_colours_loop colours p palette_entries number_of_colours.toNat

/-- One channel error of the duplicate test: `100 * abs(cand - existing) / cand`
(C int division; division by zero when the candidate channel is 0 is undefined
behaviour in the source, and is tracked separately by the scan below). -/
def canvas_channel_error (cand existing : ℕ) : ℕ :=
  100 * (Int.natAbs ((cand : ℤ) - (existing : ℤ))) / cand

/-- The body test of the dedup search loop: palette entry `search` is within
CANVAS_MAX_PALETTE_ERROR of the candidate on all three channels. -/
def canvas_colour_close (p : SpritePalette) (search : ℕ) (r g b : ℕ) : Bool :=
  decide (canvas_channel_error r (canvas_get_os_colour_red (canvas_palette_read p search)) <
            CANVAS_MAX_PALETTE_ERROR ∧
          canvas_channel_error g (canvas_get_os_colour_green (canvas_palette_read p search)) <
            CANVAS_MAX_PALETTE_ERROR ∧
          canvas_channel_error b (canvas_get_os_colour_blue (canvas_palette_read p search)) <
            CANVAS_MAX_PALETTE_ERROR)

/-- The dedup search loop of canvas_set_pallete_build_gradient over the given
list of palette indices (the source iterates `search = 0 .. palette_entries-1`
with an early break).  First component: the `include` flag, i.e. no executed
iteration matched.  Second component: TRUE when some executed iteration
performed one of the three divisions `100*abs(..)/r`, `../g`, `../b` with a
zero divisor, which is undefined behaviour in the C source. -/
def canvas_palette_scan (p : SpritePalette) (r g b : ℕ) : List ℕ → Bool × Bool
  | [] => (true, false)
  | search :: rest =>
    let dz := decide (r = 0 ∨ g = 0 ∨ b = 0)
    if canvas_colour_close p search r g b then (false, dz)
    else
      let t := canvas_palette_scan p r g b rest
      (t.1, dz || t.2)

/-- One interpolated channel of a gradient step:
`(((c_end - c_start) * step / points) + c_start) & 0xff` in C int arithmetic. -/
def canvas_gradient_channel (c_start c_end : ℕ) (step points : ℤ) : ℕ :=
  ((Int.tdiv (((c_end : ℤ) - (c_start : ℤ)) * step) points + (c_start : ℤ)).emod 256).toNat

/-- One iteration of the gradient-building loop, acting on the state
(palette, palette_entries, division-by-zero flag). -/
def canvas_gradient_step (rs gs bs re ge be : ℕ) (points : ℤ)
    (st : SpritePalette × ℕ × Bool) (step : ℤ) : SpritePalette × ℕ × Bool :=
  let r := canvas_gradient_channel rs re step points
  let g := canvas_gradient_channel gs ge step points
  let b := canvas_gradient_channel bs be step points
  let scan := canvas_palette_scan st.1 r g b (List.range st.2.1)
  if scan.1 then
    (canvas_set_palette_entry st.1 st.2.1 (canvas_make_os_colour r g b),
      st.2.1 + 1, st.2.2 || scan.2)
  else
    (st.1, st.2.1, st.2.2 || scan.2)

/-- The loop counter values `step = 1 .. points` of the gradient loop. -/
def canvas_gradient_steps (points : ℤ) : List ℤ :=
  (List.range points.toNat).map (fun (s : ℕ) => (s : ℤ) + 1)

/-- canvas_set_pallete_build_gradient (source spelling): add a gradient of
`points` colours running from colour `start` to colour `finish` (exclusive) to
the palette, skipping candidates too close to an already-placed entry.  The
third result component records whether any dedup division had divisor zero. -/
def canvas_set_pallete_build_gradient (p : SpritePalette) (palette_entries : ℕ)
    (start finish : ℕ) (points : ℤ) : SpritePalette × ℕ × Bool :=
  if CANVAS_MAX_PALETTE_ENTRIES ≤ palette_entries then (p, palette_entries, false)
  else if points < 1 ∨
      (CANVAS_MAX_PALETTE_ENTRIES : ℤ) - (palette_entries : ℤ) ≤ points then
    (p, palette_entries, false)
  else
    (canvas_gradient_steps points).foldl
      (canvas_gradient_step
        (canvas_get_os_colour_red start) (canvas_get_os_colour_green start)
        (canvas_get_os_colour_blue start)
        (canvas_get_os_colour_red finish) (canvas_get_os_colour_green finish)
        (canvas_get_os_colour_blue finish) points)
      (p, palette_entries, false)

/-- canvas_set_palette_fill_unused: fill entries palette_entries .. 255 with
white and return CANVAS_MAX_PALETTE_ENTRIES, unless the palette is already
full (or overfull), in which case the count is returned unchanged. -/
def canvas_set_palette_fill_unused (p : SpritePalette) (palette_entries : ℕ) :
    SpritePalette × ℕ :=
  if CANVAS_MAX_PALETTE_ENTRIES ≤ palette_entries then (p, palette_entries)
  else
    ((List.range' palette_entries (CANVAS_MAX_PALETTE_ENTRIES - palette_entries)).foldl
        (fun q i => canvas_set_palette_entry q i os_COLOUR_WHITE) p,
      CANVAS_MAX_PALETTE_ENTRIES)

/-- A canvas_block instance.  Pointer-valued fields of the C struct are
modelled by has* flags (NULL = false); `spriteExists` is the
canvas_does_sprite_exist test on the sprite area (area->first != area->used);
`hasPalette` is the canvas_does_palette_exist test on the sprite;
`spriteAreaSize` is the byte size passed to malloc/realloc for the sprite
area; `savedContext` holds the four saved redirection context words. -/
structure canvas_block where
  sizeX : ℤ
  sizeY : ℤ
  hasSpriteArea : Bool
  spriteAreaSize : ℤ
  spriteExists : Bool
  hasPalette : Bool
  palette : SpritePalette
  hasSaveArea : Bool
  redirection_active : Bool
  savedContext : ℤ × ℤ × ℤ × ℤ
deriving Repr, DecidableEq

/-- canvas_create_instance: fresh instance, no sprite area, no save area,
zero size, redirection inactive. -/
def canvas_create_instance : canvas_block where
  sizeX := 0
  sizeY := 0
  hasSpriteArea := false
  spriteAreaSize := 0
  spriteExists := false
  hasPalette := false
  palette := []
  hasSaveArea := false
  redirection_active := false
  savedContext := (0, 0, 0, 0)

/-- Word alignment used for the row stride: `(z) & 0xfffffffc`, which clears
the low two bits, i.e. rounds z DOWN to a multiple of 4 (two's complement). -/
def canvas_word_align_down (z : ℤ) : ℤ := z - z % 4

/-- The sprite area size in bytes computed by canvas_configure_area:
header + sprite header + ((width + 6) & ~3) * height (when both dimensions
are positive; just the sprite header otherwise), plus the palette size when
a palette is requested. -/
def canvas_area_size (width height : ℤ) (include_palette : Bool) : ℤ :=
  let base :=
    if 0 < width ∧ 0 < height then
      CANVAS_AREA_HEADER_SIZE + CANVAS_SPRITE_HEADER_SIZE +
        canvas_word_align_down (width + 6) * height
    else
      CANVAS_SPRITE_HEADER_SIZE
  if include_palette then base + CANVAS_PALETTE_SIZE else base

/-- canvas_configure_area.  `malloc_ok` is the outcome of the
malloc/realloc of the sprite area; `create_ok` collapses the outcomes of the
xosspriteop clear/create calls (which fail only through the OS, e.g. for
non-positive dimensions).  On malloc or OS failure the sprite area pointer is
NULL afterwards (malloc returned NULL / the area was freed).  A freshly
created palette is unwritten memory, i.e. all slots `none`.  The
canvas_insert_265_palette guards (sprite alone in the area, enough free
space) hold by construction for the area just built, so insertion succeeds
whenever requested. -/
def canvas_configure_area (c : canvas_block) (width height : ℤ)
    (include_palette : Bool) (malloc_ok create_ok : Bool) : Bool × canvas_block :=
  let c := { c with sizeX := 0, sizeY := 0 }
  let area_size := canvas_area_size width height include_palette
  if malloc_ok = false then
    (false, { c with hasSpriteArea := false, spriteAreaSize := 0,
                     spriteExists := false, hasPalette := false })
  else
    let c := { c with hasSpriteArea := true, spriteAreaSize := area_size,
                      spriteExists := false, hasPalette := false }
    if area_size = CANVAS_AREA_HEADER_SIZE then
      (false, c)
    else if create_ok = false then
      (false, { c with hasSpriteArea := false, spriteAreaSize := 0 })
    else
      let c := { c with sizeX := width, sizeY := height, spriteExists := true }
      if include_palette then
        (true, { c with hasPalette := true, palette := List.replicate 256 none })
      else
        (true, c)

/-- Result of canvas_set_game_colours: the returned osbool, the updated
canvas, and whether any dedup division with divisor zero was performed
during gradient generation (undefined behaviour in the C source). -/
structure SetColoursResult where
  ok : Bool
  canvas : canvas_block
  divZero : Bool
deriving Repr, DecidableEq

/-- The nested pair loop of canvas_set_game_colours: for every ordered pair
start < finish < number_of_colours, build a CANVAS_GRADIENT_LENGTH gradient
between the palette entries at those indices (read from the evolving
palette). -/
def canvas_pair_gradient_fold (number_of_colours : ℤ)
    (st0 : SpritePalette × ℕ × Bool) : SpritePalette × ℕ × Bool :=
  (List.range (number_of_colours - 1).toNat).foldl
    (fun st1 start =>
      (List.range' (start + 1) (number_of_colours.toNat - (start + 1))).foldl
        (fun st2 finish =>
          let g := canvas_set_pallete_build_gradient st2.1 st2.2.1
            (canvas_palette_read st2.1 start) (canvas_palette_read st2.1 finish)
            CANVAS_GRADIENT_LENGTH
          (g.1, g.2.1, st2.2.2 || g.2.2))
        st1)
    st0

/-- The state of the palette synthesis of canvas_set_game_colours after the
game colours and all gradient generation, just before the white fill: the
palette, the entry count reached by the gradient phases, and the
division-by-zero flag.  This is the point canvas.c:466 has reached when
canvas_set_palette_fill_unused is called. -/
def canvas_palette_synthesis_gradient_state (p : SpritePalette) (f : ℕ → ℚ) (n : ℤ) :
    SpritePalette × ℕ × Bool :=
  canvas_pair_gradient_fold n
    (canvas_set_pallete_build_gradient (canvas_set_palette_game_colours p 0 f n).1
      (canvas_set_palette_game_colours p 0 f n).2 os_COLOUR_BLACK os_COLOUR_WHITE 10)

/-- The palette-synthesis body of canvas_set_game_colours: game colours at
entry count 0, black-to-white gradient of 10 points, the pair gradients
(canvas_palette_synthesis_gradient_state), then the white fill.  Result:
(palette, entry count, division-by-zero flag). -/
def canvas_palette_synthesis (p : SpritePalette) (f : ℕ → ℚ) (n : ℤ) :
    SpritePalette × ℕ × Bool :=
  let s3 := canvas_palette_synthesis_gradient_state p f n
  let s4 := canvas_set_palette_fill_unused s3.1 s3.2.1
  (s4.1, s4.2, s3.2.2)

/-- canvas_set_game_colours: guard checks, then the palette synthesis,
succeeding iff exactly CANVAS_MAX_PALETTE_ENTRIES entries result.  The
colours pointer is `none` when NULL. -/
def canvas_set_game_colours (c : canvas_block) (colours : Option (ℕ → ℚ))
    (number_of_colours : ℤ) : SetColoursResult :=
  match colours with
  | none => ⟨false, c, false⟩
  | some f =>
    if c.hasSpriteArea = false then ⟨false, c, false⟩
    else if c.spriteExists = false then ⟨false, c, false⟩
    else if c.hasPalette = false then ⟨false, c, false⟩
    else
      let s := canvas_palette_synthesis c.palette f number_of_colours
      ⟨decide (s.2.1 = CANVAS_MAX_PALETTE_ENTRIES), { c with palette := s.1 }, s.2.2⟩

/-- CANVAS_PIXEL_SIZE.  Modelled from the spec: the constant is declared in a
part of the repository outside the provided sources (only its uses appear in
canvas.c and game_window.c); the spec calls it the pixel scale relating
canvas pixels to OS units.  Its concrete value does not affect any claim
settled here. -/
def CANVAS_PIXEL_SIZE : ℤ := 2

/-- canvas_get_sprite: capture the canvas from screen; only the success of
the request matters to the claims (pixel contents are not modelled). -/
def canvas_get_sprite (c : canvas_block) (x y : ℤ) : Bool :=
  c.hasSpriteArea && c.spriteExists

/-- canvas_put_sprite: plot the canvas sprite with its bottom-left corner at
`(x, y - CANVAS_PIXEL_SIZE * (size.y - 1))`, the coordinates being given
from the TOP left.  The result is the plot request issued to the OS
(`none` when the guards fail and no plot happens). -/
def canvas_put_sprite (c : canvas_block) (x y : ℤ) : Option (ℤ × ℤ) :=
  if c.hasSpriteArea = true ∧ c.spriteExists = true then
    some (x, y - CANVAS_PIXEL_SIZE * (c.sizeY - 1))
  else
    none

/-- canvas_start_redirection.  `os_context` is the outcome of the
xosspriteop_switch_output_to_sprite call: `none` an OS error, `some` the four
context words it returns. -/
def canvas_start_redirection (c : canvas_block) (os_context : Option (ℤ × ℤ × ℤ × ℤ)) :
    Bool × canvas_block :=
  if c.hasSpriteArea = false then (false, c)
  else if c.hasSaveArea = false then (false, c)
  else if c.spriteExists = false then (false, c)
  else if c.redirection_active = true then (false, c)
  else
    match os_context with
    | none => (false, c)
    | some ctx => (true, { c with redirection_active := true, savedContext := ctx })

/-- canvas_stop_redirection.  `os_ok` is the outcome of the restoring
xosspriteop_switch_output_to_sprite call. -/
def canvas_stop_redirection (c : canvas_block) (os_ok : Bool) : Bool × canvas_block :=
  if c.hasSpriteArea = false then (false, c)
  else if c.hasSaveArea = false then (false, c)
  else if c.spriteExists = false then (false, c)
  else if c.redirection_active = false then (false, c)
  else if os_ok = false then (false, c)
  else (true, { c with redirection_active := false })

/-- A blitter_block: a private canvas (`none` = NULL pointer) and the
position from which the blitter was last captured. -/
structure blitter_block where
  canvas : Option canvas_block
  posX : ℤ
  posY : ℤ
deriving Repr, DecidableEq

/-- blitter_store_from_canvas: record the capture position, then capture the
area from the screen into the blitter's canvas. -/
def blitter_store_from_canvas (b : blitter_block) (x y : ℤ) : Bool × blitter_block :=
  match b.canvas with
  | none => (false, b)
  | some cv =>
    let b := { b with posX := x, posY := y }
    (canvas_get_sprite cv x y, b)

/-- blitter_paint_to_canvas: paint the blitter contents; a coordinate equal
to -1 is replaced by the stored coordinate.  The result is the plot request
issued through canvas_put_sprite (`none` when nothing is plotted). -/
def blitter_paint_to_canvas (b : blitter_block) (x y : ℤ) : Option (ℤ × ℤ) :=
  match b.canvas with
  | none => none
  | some cv =>
    let x := if x = -1 then b.posX else x
    let y := if y = -1 then b.posY else y
    canvas_put_sprite cv x y

/-- blitter_create on a set modelled as the linked list of its blitters.
`malloc_blitter_ok` / `malloc_canvas_ok` are the outcomes of the two
allocations (blitter block, canvas instance); `cfg_malloc_ok` / `cfg_create_ok`
feed the canvas_configure_area call.  The source links the new blitter into
the set before creating the canvas and calls blitter_delete (which unlinks
it again) when canvas_create_instance fails; the net list effects are
modelled.  The result of canvas_configure_area is discarded, exactly as in
the source, which ignores its return value. -/
def blitter_create (set : List blitter_block) (width height : ℤ)
    (malloc_blitter_ok malloc_canvas_ok cfg_malloc_ok cfg_create_ok : Bool) :
    Option blitter_block × List blitter_block :=
  if malloc_blitter_ok = false then (none, set)
  else if malloc_canvas_ok = false then (none, set)
  else
    let cfg := canvas_configure_area canvas_create_instance width height false
      cfg_malloc_ok cfg_create_ok
    let b : blitter_block := { canvas := some cfg.2, posX := 0, posY := 0 }
    (some b, b :: set)

/-- GAME_DRAW_BUFFER_LENGTH: the size of the Draw path buffer, in words. -/
def GAME_DRAW_BUFFER_LENGTH : ℕ := 256

/-- Draw module path element tags (OSLib). -/
def draw_END_PATH : ℤ := 0

/-- draw_MOVE_TO element tag. -/
def draw_MOVE_TO : ℤ := 2

/-- draw_CLOSE_LINE element tag. -/
def draw_CLOSE_LINE : ℤ := 5

/-- draw_LINE_TO element tag. -/
def draw_LINE_TO : ℤ := 8

/-- The state of game_draw.c: the words of the current path (the buffer
contents up to game_draw_path_length), the length in words, and the
game_draw_valid_path flag. -/
structure game_draw_state where
  path : List ℤ
  path_length : ℕ
  valid_path : Bool
deriving Repr, DecidableEq

/-- game_draw_start_path: reset the path length and mark the path valid. -/
def game_draw_start_path (s : game_draw_state) : game_draw_state :=
  { s with path := [], path_length := 0, valid_path := true }

/-- game_draw_get_new_element: claim `element_size` words from the buffer.
On overflow the path is marked invalid and NULL is returned; otherwise the
offset of the new element is returned and the length advances. -/
def game_draw_get_new_element (s : game_draw_state) (element_size : ℕ) :
    Option ℕ × game_draw_state :=
  if GAME_DRAW_BUFFER_LENGTH < s.path_length + element_size then
    (none, { s with valid_path := false })
  else
    (some s.path_length, { s with path_length := s.path_length + element_size })

/-- game_draw_add_move: a 3-word move_to element; coordinates are shifted
left 8 bits (x << 8 = x * 256). -/
def game_draw_add_move (s : game_draw_state) (x y : ℤ) : Bool × game_draw_state :=
  let r := game_draw_get_new_element s 3
  match r.1 with
  | none => (false, r.2)
  | some _ => (true, { r.2 with path := r.2.path ++ [draw_MOVE_TO, x * 256, y * 256] })

/-- game_draw_add_line: a 3-word line_to element. -/
def game_draw_add_line (s : game_draw_state) (x y : ℤ) : Bool × game_draw_state :=
  let r := game_draw_get_new_element s 3
  match r.1 with
  | none => (false, r.2)
  | some _ => (true, { r.2 with path := r.2.path ++ [draw_LINE_TO, x * 256, y * 256] })

/-- game_draw_close_subpath: a 1-word close element. -/
def game_draw_close_subpath (s : game_draw_state) : Bool × game_draw_state :=
  let r := game_draw_get_new_element s 1
  match r.1 with
  | none => (false, r.2)
  | some _ => (true, { r.2 with path := r.2.path ++ [draw_CLOSE_LINE] })

/-- game_draw_end_path: a 2-word terminator element. -/
def game_draw_end_path (s : game_draw_state) : Bool × game_draw_state :=
  let r := game_draw_get_new_element s 2
  match r.1 with
  | none => (false, r.2)
  | some _ => (true, { r.2 with path := r.2.path ++ [draw_END_PATH, 0] })

/-- game_draw_plot_path: stroke the path.  `none` models “the draw was
skipped and NULL (no error) returned”, the invalid-path branch; `some`
carries the xdraw_stroke request (path words and width << 8). -/
def game_draw_plot_path (s : game_draw_state) (width : ℤ) : Option (List ℤ × ℤ) :=
  if s.valid_path = false then none
  else some (s.path, width * 256)

/-- game_draw_fill_path: fill the path; `none` models the skipped draw with
NULL returned (the width parameter is unused by the source, too). -/
def game_draw_fill_path (s : game_draw_state) (width : ℤ) : Option (List ℤ) :=
  if s.valid_path = false then none
  else some s.path

/-- The path-building operations that can follow an overflow (everything
except game_draw_start_path). -/
inductive game_draw_op where
  | move (x y : ℤ)
  | line (x y : ℤ)
  | close
  | finish
deriving Repr, DecidableEq

/-- Apply one path-building operation to the state. -/
def game_draw_apply (s : game_draw_state) (op : game_draw_op) : game_draw_state :=
  match op with
  | .move x y => (game_draw_add_move s x y).2
  | .line x y => (game_draw_add_line s x y).2
  | .close => (game_draw_close_subpath s).2
  | .finish => (game_draw_end_path s).2

/-- Modelled from the spec (wording of claim C5): conversion of a channel
`c` in [0,1] to 8 bits via round(c x 255), rounding half up, i.e.
the floor of c * 255 + 1/2, written on the numerator and denominator of c so
that it stays kernel-evaluable (spec_round_channel_eq proves it equal to
the floor form).  Used only to compare the spec's claimed quantization with
the source's. -/
def spec_round_channel (q : ℚ) : ℤ :=
  (2 * 0xff * q.num + (q.den : ℤ)) / (2 * (q.den : ℤ))

/-- Modelled from the spec (wording of claim C6): `z` rounded UP to a
multiple of 4.  Used only to compare the spec's claimed row stride with the
source's. -/
def spec_round_up_to_word (z : ℤ) : ℤ := ((z + 3) / 4) * 4

/-- A concrete canvas configured with a (still unwritten) 256-entry palette,
used to instantiate theorems on concrete inputs. -/
def test_canvas_with_palette : canvas_block :=
  { canvas_create_instance with
      hasSpriteArea := true
      spriteExists := true
      hasPalette := true
      palette := List.replicate 256 none }

/-- The concrete canvas above with a save area, redirection active. -/
def test_canvas_redirecting : canvas_block :=
  { test_canvas_with_palette with hasSaveArea := true, redirection_active := true }

/-- The concrete canvas above with a save area, redirection inactive. -/
def test_canvas_idle : canvas_block :=
  { test_canvas_with_palette with hasSaveArea := true, redirection_active := false }

/-- Two game colours (0, 0, 0.5) and (0, 0, 1): both have zero red and green
channels, so their pair gradient keeps those channels at zero. -/
def test_colours_pair_zero_channels : ℕ → ℚ :=
  fun j => if j = 2 then mkRat 1 2 else if j = 5 then 1 else 0

/-- A palette whose first 246 entries are black and whose last 10 slots are
still free. -/
def test_palette_246_black : SpritePalette :=
  List.replicate 246 (some 0) ++ List.replicate 10 none

/-- A concrete blitter over a 4-row palette-less canvas. -/
def test_blitter : blitter_block :=
  { canvas := some { canvas_create_instance with
      hasSpriteArea := true, spriteExists := true, sizeX := 6, sizeY := 4 }
    posX := 0
    posY := 0 }

/-! ## Helper lemmas about the palette primitives -/

theorem canvas_set_palette_entry_length (p : SpritePalette) (e c : ℕ) :
    (canvas_set_palette_entry p e c).length = p.length := by
  unfold canvas_set_palette_entry
  split <;> simp

theorem palette_slot_set_self (p : SpritePalette) (e c : ℕ)
    (h : e < CANVAS_MAX_PALETTE_ENTRIES) (hp : e < p.length) :
    palette_slot (canvas_set_palette_entry p e c) e = some c := by
  unfold canvas_set_palette_entry palette_slot
  rw [if_pos h]
  simp [List.getElem?_set, hp]

theorem palette_slot_set_ne (p : SpritePalette) (e c i : ℕ) (h : e ≠ i) :
    palette_slot (canvas_set_palette_entry p e c) i = palette_slot p i := by
  unfold canvas_set_palette_entry palette_slot
  split
  · simp [List.getElem?_set, h]
  · rfl

theorem foldl_preserves {α σ : Type _} {P : σ → Prop} {f : σ → α → σ}
    (h : ∀ s a, P s → P (f s a)) :
    ∀ (l : List α) (s : σ), P s → P (l.foldl f s) := by
  intro l
  induction l with
  | nil => intro s hs; exact hs
  | cons a t ih =>
    intro s hs
    exact ih _ (h s a hs)

theorem canvas_palette_scan_include (p : SpritePalette) (r g b : ℕ) :
    ∀ l : List ℕ, (canvas_palette_scan p r g b l).1 = true ↔
      ∀ i ∈ l, canvas_colour_close p i r g b = false := by
  intro l
  induction l with
  | nil => simp [canvas_palette_scan]
  | cons a t ih =>
    by_cases hc : canvas_colour_close p a r g b = true
    · simp [canvas_palette_scan, hc]
    · rw [Bool.not_eq_true] at hc
      simp [canvas_palette_scan, hc, ih]

theorem canvas_game_colours_loop_spec (f : ℕ → ℚ) :
    ∀ (m : ℕ) (p : SpritePalette), m ≤ p.length → p.length ≤ 256 →
    (canvas_game_colours_loop f p 0 m).2 = m ∧
    (canvas_game_colours_loop f p 0 m).1.length = p.length ∧
    (∀ i, i < m →
      palette_slot (canvas_game_colours_loop f p 0 m).1 i = some (canvas_game_colour f i)) ∧
    (∀ i, m ≤ i →
      palette_slot (canvas_game_colours_loop f p 0 m).1 i = palette_slot p i) := by
  intro m
  induction m with
  | zero =>
    intro p _ _
    refine ⟨rfl, rfl, ?_, fun i _ => rfl⟩
    intro i hi
    exact absurd hi (Nat.not_lt_zero i)
  | succ m ih =>
    intro p hm hp
    obtain ⟨h1, h2, h3, h4⟩ := ih p (by omega) hp
    have hstep : canvas_game_colours_loop f p 0 (m + 1) =
        (canvas_set_palette_entry (canvas_game_colours_loop f p 0 m).1
            (canvas_game_colours_loop f p 0 m).2 (canvas_game_colour f m),
          (canvas_game_colours_loop f p 0 m).2 + 1) := by
      unfold canvas_game_colours_loop
      rw [List.range_succ, List.foldl_append, List.foldl_cons, List.foldl_nil]
    rw [hstep, h1]
    have hm256 : m < CANVAS_MAX_PALETTE_ENTRIES := by
      unfold CANVAS_MAX_PALETTE_ENTRIES
      omega
    refine ⟨rfl, ?_, ?_, ?_⟩
    · rw [canvas_set_palette_entry_length]
      exact h2
    · intro i hi
      by_cases hie : i = m
      · subst hie
        rw [palette_slot_set_self _ _ _ hm256 (by omega)]
      · rw [palette_slot_set_ne _ _ _ _ (fun hh => hie hh.symm)]
        exact h3 i (by omega)
    · intro i hi
      rw [palette_slot_set_ne _ _ _ _ (by omega)]
      exact h4 i (by omega)

theorem canvas_set_palette_game_colours_spec (p : SpritePalette) (f : ℕ → ℚ) (n : ℤ)
    (hlen : p.length = 256) (hn0 : 0 ≤ n) (hn : n < 256) :
    (canvas_set_palette_game_colours p 0 f n).2 = n.toNat ∧
    (canvas_set_palette_game_colours p 0 f n).1.length = 256 ∧
    (∀ i, i < n.toNat →
      palette_slot (canvas_set_palette_game_colours p 0 f n).1 i =
        some (canvas_game_colour f i)) ∧
    (∀ i, n.toNat ≤ i →
      palette_slot (canvas_set_palette_game_colours p 0 f n).1 i = palette_slot p i) := by
  have hguard : canvas_set_palette_game_colours p 0 f n =
      canvas_game_colours_loop f p 0 n.toNat := by
    unfold canvas_set_palette_game_colours CANVAS_MAX_PALETTE_ENTRIES
    rw [if_neg (by omega), if_neg (by push_neg; omega)]
  rw [hguard]
  obtain ⟨h1, h2, h3, h4⟩ := canvas_game_colours_loop_spec f n.toNat p (by omega) (by omega)
  exact ⟨h1, hlen ▸ h2, h3, h4⟩

theorem canvas_gradient_step_cases (rs gs bs re ge be : ℕ) (pts : ℤ)
    (p : SpritePalette) (pe : ℕ) (dz : Bool) (a : ℤ) :
    (∃ dz2,
      (canvas_palette_scan p (canvas_gradient_channel rs re a pts)
          (canvas_gradient_channel gs ge a pts)
          (canvas_gradient_channel bs be a pts) (List.range pe)).1 = true ∧
      canvas_gradient_step rs gs bs re ge be pts (p, pe, dz) a =
        (canvas_set_palette_entry p pe
          (canvas_make_os_colour (canvas_gradient_channel rs re a pts)
            (canvas_gradient_channel gs ge a pts)
            (canvas_gradient_channel bs be a pts)), pe + 1, dz2)) ∨
    (∃ dz2,
      (canvas_palette_scan p (canvas_gradient_channel rs re a pts)
          (canvas_gradient_channel gs ge a pts)
          (canvas_gradient_channel bs be a pts) (List.range pe)).1 = false ∧
      canvas_gradient_step rs gs bs re ge be pts (p, pe, dz) a = (p, pe, dz2)) := by
  unfold canvas_gradient_step
  by_cases hs : (canvas_palette_scan p (canvas_gradient_channel rs re a pts)
      (canvas_gradient_channel gs ge a pts)
      (canvas_gradient_channel bs be a pts) (List.range pe)).1 = true
  · left
    refine ⟨dz || (canvas_palette_scan p (canvas_gradient_channel rs re a pts)
      (canvas_gradient_channel gs ge a pts)
      (canvas_gradient_channel bs be a pts) (List.range pe)).2, hs, ?_⟩
    simp [hs]
  · right
    rw [Bool.not_eq_true] at hs
    refine ⟨dz || (canvas_palette_scan p (canvas_gradient_channel rs re a pts)
      (canvas_gradient_channel gs ge a pts)
      (canvas_gradient_channel bs be a pts) (List.range pe)).2, hs, ?_⟩
    simp [hs]

theorem canvas_gradient_fold_spec (rs gs bs re ge be : ℕ) (pts : ℤ) :
    ∀ (l : List ℤ) (p : SpritePalette) (pe : ℕ) (dz : Bool) (q : SpritePalette)
      (k : ℕ) (dz2 : Bool),
    l.foldl (canvas_gradient_step rs gs bs re ge be pts) (p, pe, dz) = (q, k, dz2) →
    pe ≤ k ∧ k ≤ pe + l.length ∧ q.length = p.length ∧
    (∀ i, i < pe → palette_slot q i = palette_slot p i) ∧
    (∀ i, k ≤ i → palette_slot q i = palette_slot p i) ∧
    (p.length = 256 → pe + l.length ≤ 256 →
      (∀ i, i < pe → (palette_slot p i).isSome = true) →
      ∀ i, i < k → (palette_slot q i).isSome = true) := by
  intro l
  induction l with
  | nil =>
    intro p pe dz q k dz2 h
    rw [List.foldl_nil] at h
    have hq : p = q := congrArg Prod.fst h
    have hk : pe = k := congrArg (fun t => t.2.1) h
    subst hq
    subst hk
    exact ⟨le_refl _, by simp, rfl, fun i _ => rfl, fun i _ => rfl,
      fun _ _ hsome i hi => hsome i hi⟩
  | cons a t ih =>
    intro p pe dz q k dz2 h
    rw [List.foldl_cons] at h
    rcases canvas_gradient_step_cases rs gs bs re ge be pts p pe dz a with
      ⟨d1, _, hstep⟩ | ⟨d1, _, hstep⟩
    · rw [hstep] at h
      obtain ⟨ha, hb, hc, hlo, hhi, hsome⟩ := ih _ _ _ _ _ _ h
      have hlen : (canvas_set_palette_entry p pe
          (canvas_make_os_colour (canvas_gradient_channel rs re a pts)
            (canvas_gradient_channel gs ge a pts)
            (canvas_gradient_channel bs be a pts))).length = p.length :=
        canvas_set_palette_entry_length ..
      refine ⟨by omega, by simp only [List.length_cons]; omega, by rw [hc, hlen], ?_, ?_, ?_⟩
      · intro i hi
        rw [hlo i (by omega), palette_slot_set_ne _ _ _ _ (by omega)]
      · intro i hi
        rw [hhi i hi, palette_slot_set_ne _ _ _ _ (by omega)]
      · intro hp256 hcap hbelow i hi
        refine hsome (by rw [hlen, hp256]) (by simp only [List.length_cons] at hcap; omega) ?_ i hi
        intro j hj
        by_cases hje : j = pe
        · subst hje
          rw [palette_slot_set_self _ _ _
            (by unfold CANVAS_MAX_PALETTE_ENTRIES; simp only [List.length_cons] at hcap; omega)
            (by simp only [List.length_cons] at hcap; omega)]
          rfl
        · rw [palette_slot_set_ne _ _ _ _ (fun hh => hje hh.symm)]
          exact hbelow j (by omega)
    · rw [hstep] at h
      obtain ⟨ha, hb, hc, hlo, hhi, hsome⟩ := ih _ _ _ _ _ _ h
      exact ⟨ha, by simp only [List.length_cons]; omega, hc, hlo, hhi,
        fun hp256 hcap hbelow => hsome hp256
          (by simp only [List.length_cons] at hcap; omega) hbelow⟩

theorem canvas_gradient_steps_length (pts : ℤ) :
    (canvas_gradient_steps pts).length = pts.toNat := by
  show ((List.range pts.toNat).map (fun (s : ℕ) => (s : ℤ) + 1)).length = pts.toNat
  rw [List.length_map, List.length_range]

theorem canvas_set_pallete_build_gradient_spec (p : SpritePalette) (pe : ℕ)
    (s f : ℕ) (pts : ℤ) :
    ∀ (q : SpritePalette) (k : ℕ) (dz : Bool),
    canvas_set_pallete_build_gradient p pe s f pts = (q, k, dz) →
    pe ≤ k ∧ (pe < 256 → k < 256) ∧ q.length = p.length ∧
    (∀ i, i < pe → palette_slot q i = palette_slot p i) ∧
    (∀ i, k ≤ i → palette_slot q i = palette_slot p i) ∧
    (p.length = 256 → (∀ i, i < pe → (palette_slot p i).isSome = true) →
      ∀ i, i < k → (palette_slot q i).isSome = true) := by
  intro q k dz h
  unfold canvas_set_pallete_build_gradient at h
  by_cases h1 : CANVAS_MAX_PALETTE_ENTRIES ≤ pe
  · rw [if_pos h1] at h
    have hq : p = q := congrArg Prod.fst h
    have hk : pe = k := congrArg (fun t => t.2.1) h
    subst hq
    subst hk
    exact ⟨le_refl _, fun hh => hh, rfl, fun i _ => rfl, fun i _ => rfl,
      fun _ hsome i hi => hsome i hi⟩
  · rw [if_neg h1] at h
    by_cases h2 : pts < 1 ∨ (CANVAS_MAX_PALETTE_ENTRIES : ℤ) - (pe : ℤ) ≤ pts
    · rw [if_pos h2] at h
      have hq : p = q := congrArg Prod.fst h
      have hk : pe = k := congrArg (fun t => t.2.1) h
      subst hq
      subst hk
      exact ⟨le_refl _, fun hh => hh, rfl, fun i _ => rfl, fun i _ => rfl,
        fun _ hsome i hi => hsome i hi⟩
    · rw [if_neg h2] at h
      obtain ⟨ha, hb, hc, hlo, hhi, hsome⟩ :=
        canvas_gradient_fold_spec _ _ _ _ _ _ _ _ _ _ _ _ _ _ h
      rw [canvas_gradient_steps_length] at hb
      unfold CANVAS_MAX_PALETTE_ENTRIES at h1 h2
      push_neg at h2
      refine ⟨ha, fun _ => by omega, hc, hlo, hhi, ?_⟩
      intro hp256 hbelow
      refine hsome hp256 ?_ hbelow
      rw [canvas_gradient_steps_length]
      omega

theorem canvas_fill_fold_spec :
    ∀ (cnt first : ℕ) (p : SpritePalette), first + cnt ≤ 256 → p.length = 256 →
    ((List.range' first cnt).foldl
        (fun q i => canvas_set_palette_entry q i os_COLOUR_WHITE) p).length = 256 ∧
    (∀ i, i < first →
      palette_slot ((List.range' first cnt).foldl
        (fun q i => canvas_set_palette_entry q i os_COLOUR_WHITE) p) i = palette_slot p i) ∧
    (∀ i, first ≤ i → i < first + cnt →
      palette_slot ((List.range' first cnt).foldl
        (fun q i => canvas_set_palette_entry q i os_COLOUR_WHITE) p) i =
          some os_COLOUR_WHITE) := by
  intro cnt
  induction cnt with
  | zero =>
    intro first p _ hp
    exact ⟨hp, fun i _ => rfl, fun i h1 h2 => by omega⟩
  | succ m ih =>
    intro first p hcap hp
    rw [List.range'_succ, List.foldl_cons]
    have hw : (canvas_set_palette_entry p first os_COLOUR_WHITE).length = 256 := by
      rw [canvas_set_palette_entry_length, hp]
    obtain ⟨h1, h2, h3⟩ := ih (first + 1) (canvas_set_palette_entry p first os_COLOUR_WHITE)
      (by omega) hw
    refine ⟨h1, ?_, ?_⟩
    · intro i hi
      rw [h2 i (by omega), palette_slot_set_ne _ _ _ _ (by omega)]
    · intro i hlo hhi
      by_cases hie : i = first
      · subst hie
        rw [h2 i (by omega)]
        exact palette_slot_set_self _ _ _
          (by unfold CANVAS_MAX_PALETTE_ENTRIES; omega) (by omega)
      · exact h3 i (by omega) (by omega)

theorem canvas_set_palette_fill_unused_spec (p : SpritePalette) (pe : ℕ)
    (hpe : pe < 256) (hp : p.length = 256) :
    (canvas_set_palette_fill_unused p pe).2 = 256 ∧
    (canvas_set_palette_fill_unused p pe).1.length = 256 ∧
    (∀ i, i < pe →
      palette_slot (canvas_set_palette_fill_unused p pe).1 i = palette_slot p i) ∧
    (∀ i, pe ≤ i → i < 256 →
      palette_slot (canvas_set_palette_fill_unused p pe).1 i = some os_COLOUR_WHITE) := by
  have hguard : canvas_set_palette_fill_unused p pe =
      ((List.range' pe (CANVAS_MAX_PALETTE_ENTRIES - pe)).foldl
          (fun q i => canvas_set_palette_entry q i os_COLOUR_WHITE) p,
        CANVAS_MAX_PALETTE_ENTRIES) := by
    unfold canvas_set_palette_fill_unused
    rw [if_neg (by unfold CANVAS_MAX_PALETTE_ENTRIES; omega)]
  rw [hguard]
  obtain ⟨h1, h2, h3⟩ := canvas_fill_fold_spec (CANVAS_MAX_PALETTE_ENTRIES - pe) pe p
    (by unfold CANVAS_MAX_PALETTE_ENTRIES; omega) hp
  refine ⟨rfl, h1, h2, ?_⟩
  intro i hlo hhi
  exact h3 i hlo (by unfold CANVAS_MAX_PALETTE_ENTRIES at *; omega)

/-- The invariant preserved across the pair-gradient loops: palette length
256, the entry count at least `nn` (the game colour count) and below 256,
the first `nn` slots untouched relative to `pbase`, and every slot below the
entry count defined. -/
def PairInv (nn : ℕ) (pbase : SpritePalette) (st : SpritePalette × ℕ × Bool) : Prop :=
  st.1.length = 256 ∧ nn ≤ st.2.1 ∧ st.2.1 < 256 ∧
  (∀ i, i < nn → palette_slot st.1 i = palette_slot pbase i) ∧
  (∀ i, i < st.2.1 → (palette_slot st.1 i).isSome = true)

theorem canvas_build_gradient_preserves_PairInv (nn : ℕ) (pbase : SpritePalette)
    (st : SpritePalette × ℕ × Bool) (s f : ℕ) (pts : ℤ) (dzacc : Bool)
    (h : PairInv nn pbase st) :
    PairInv nn pbase
      ((canvas_set_pallete_build_gradient st.1 st.2.1 s f pts).1,
        (canvas_set_pallete_build_gradient st.1 st.2.1 s f pts).2.1,
        dzacc) := by
  obtain ⟨hlen, hnn, hlt, hbase, hsome⟩ := h
  rcases hg : canvas_set_pallete_build_gradient st.1 st.2.1 s f pts with ⟨q, k, dz⟩
  obtain ⟨ha, hb, hc, hlo, hhi, hs⟩ :=
    canvas_set_pallete_build_gradient_spec st.1 st.2.1 s f pts q k dz hg
  refine ⟨?_, ?_, ?_, ?_, ?_⟩
  · show q.length = 256
    rw [hc, hlen]
  · show nn ≤ k
    omega
  · show k < 256
    exact hb hlt
  · show ∀ i, i < nn → palette_slot q i = palette_slot pbase i
    intro i hi
    rw [hlo i (by omega)]
    exact hbase i hi
  · show ∀ i, i < k → (palette_slot q i).isSome = true
    exact hs hlen hsome

theorem canvas_pair_gradient_fold_inv (nn : ℕ) (pbase : SpritePalette) (n : ℤ)
    (st0 : SpritePalette × ℕ × Bool) (h0 : PairInv nn pbase st0) :
    PairInv nn pbase (canvas_pair_gradient_fold n st0) := by
  unfold canvas_pair_gradient_fold
  refine foldl_preserves ?_ _ _ h0
  intro st1 first h1
  refine foldl_preserves ?_ _ _ h1
  intro st2 finish h2
  exact canvas_build_gradient_preserves_PairInv nn pbase st2 _ _ _ _ h2

/-- The full palette synthesis: for a 256-slot palette and 0 <= n < 256 the
entry count ends at exactly 256, every slot is defined, slots [0, n) hold
the quantized game colours, the gradient phases end at a count m with
n <= m < 256 (so the white tail is never empty), the slots below m are
exactly those produced by the gradient phases (the white fill does not touch
them), and every slot in [m, 256) is white. -/
theorem canvas_palette_synthesis_spec (p : SpritePalette) (f : ℕ → ℚ) (n : ℤ)
    (hlen : p.length = 256) (hn0 : 0 ≤ n) (hn : n < 256) :
    (canvas_palette_synthesis p f n).2.1 = 256 ∧
    (canvas_palette_synthesis p f n).1.length = 256 ∧
    (∀ i, i < 256 → (palette_slot (canvas_palette_synthesis p f n).1 i).isSome = true) ∧
    (∀ i, i < n.toNat →
      palette_slot (canvas_palette_synthesis p f n).1 i = some (canvas_game_colour f i)) ∧
    n.toNat ≤ (canvas_palette_synthesis_gradient_state p f n).2.1 ∧
    (canvas_palette_synthesis_gradient_state p f n).2.1 < 256 ∧
    (∀ i, i < (canvas_palette_synthesis_gradient_state p f n).2.1 →
      palette_slot (canvas_palette_synthesis p f n).1 i =
        palette_slot (canvas_palette_synthesis_gradient_state p f n).1 i) ∧
    (∀ i, (canvas_palette_synthesis_gradient_state p f n).2.1 ≤ i → i < 256 →
      palette_slot (canvas_palette_synthesis p f n).1 i = some os_COLOUR_WHITE) := by
  obtain ⟨h1cnt, h1len, h1lo, h1hi⟩ := canvas_set_palette_game_colours_spec p f n hlen hn0 hn
  rcases hg2 : canvas_set_pallete_build_gradient (canvas_set_palette_game_colours p 0 f n).1
      (canvas_set_palette_game_colours p 0 f n).2 os_COLOUR_BLACK os_COLOUR_WHITE 10 with
    ⟨q2, k2, d2⟩
  obtain ⟨h2a, h2b, h2c, h2lo, h2hi, h2some⟩ :=
    canvas_set_pallete_build_gradient_spec _ _ _ _ _ q2 k2 d2 hg2
  have hinv2 : PairInv n.toNat (canvas_set_palette_game_colours p 0 f n).1 (q2, k2, d2) := by
    refine ⟨?_, ?_, ?_, ?_, ?_⟩
    · show q2.length = 256
      rw [h2c, h1len]
    · show n.toNat ≤ k2
      omega
    · show k2 < 256
      refine h2b ?_
      omega
    · show ∀ i, i < n.toNat →
        palette_slot q2 i = palette_slot (canvas_set_palette_game_colours p 0 f n).1 i
      intro i hi
      exact h2lo i (by omega)
    · show ∀ i, i < k2 → (palette_slot q2 i).isSome = true
      refine h2some h1len ?_
      intro i hi
      rw [h1lo i (by omega)]
      rfl
  have hinv3 := canvas_pair_gradient_fold_inv n.toNat
    (canvas_set_palette_game_colours p 0 f n).1 n (q2, k2, d2) hinv2
  rcases hg3 : canvas_pair_gradient_fold n (q2, k2, d2) with ⟨q3, k3, d3⟩
  rw [hg3] at hinv3
  obtain ⟨h3len, h3nn, h3lt, h3base, h3some⟩ := hinv3
  have h3len2 : q3.length = 256 := h3len
  have h3nn2 : n.toNat ≤ k3 := h3nn
  have h3lt2 : k3 < 256 := h3lt
  have h3base2 : ∀ i, i < n.toNat →
      palette_slot q3 i = palette_slot (canvas_set_palette_game_colours p 0 f n).1 i := h3base
  have h3some2 : ∀ i, i < k3 → (palette_slot q3 i).isSome = true := h3some
  obtain ⟨h4cnt, h4len, h4lo, h4white⟩ :=
    canvas_set_palette_fill_unused_spec q3 k3 h3lt2 h3len2
  have hgs : canvas_palette_synthesis_gradient_state p f n = (q3, k3, d3) := by
    unfold canvas_palette_synthesis_gradient_state
    rw [hg2, hg3]
  have hfinal : canvas_palette_synthesis p f n =
      ((canvas_set_palette_fill_unused q3 k3).1,
        (canvas_set_palette_fill_unused q3 k3).2, d3) := by
    unfold canvas_palette_synthesis
    rw [hgs]
  rw [hfinal, hgs]
  refine ⟨h4cnt, h4len, ?_, ?_, h3nn2, h3lt2, ?_, ?_⟩
  · intro i hi
    by_cases hik : i < k3
    · rw [h4lo i hik]
      exact h3some2 i hik
    · rw [h4white i (by omega) hi]
      rfl
  · intro i hi
    rw [h4lo i (by omega), h3base2 i hi]
    exact h1lo i hi
  · intro i hi
    exact h4lo i hi
  · intro i hlo hhi
    exact h4white i hlo hhi

/-! ## Claim theorems -/

/-- C1: for every canvas configured with a palette and every call to
canvas_set_game_colours with a non-null array of n game colours, 0 <= n < 256,
the call reports success and afterwards all 256 palette entries are defined:
entries [0, n) hold the (quantized) game colours; the gradient phases end at
a count m with n <= m < 256, the entries below m are exactly those the
gradient generation produced (so the generated gradient colours follow the
game colours, untouched by the fill), and every remaining entry in
[m, 256) - at least one, since m < 256 - is filled with white. -/
theorem claim_C1_set_game_colours_success_and_complete
    (c : canvas_block) (f : ℕ → ℚ) (n : ℤ)
    (harea : c.hasSpriteArea = true) (hsprite : c.spriteExists = true)
    (hpal : c.hasPalette = true) (hlen : c.palette.length = 256)
    (hn0 : 0 ≤ n) (hn : n < 256) :
    (canvas_set_game_colours c (some f) n).ok = true ∧
    (∀ i, i < 256 →
      (palette_slot (canvas_set_game_colours c (some f) n).canvas.palette i).isSome = true) ∧
    (∀ i, i < n.toNat →
      palette_slot (canvas_set_game_colours c (some f) n).canvas.palette i =
        some (canvas_game_colour f i)) ∧
    n.toNat ≤ (canvas_palette_synthesis_gradient_state c.palette f n).2.1 ∧
    (canvas_palette_synthesis_gradient_state c.palette f n).2.1 < 256 ∧
    (∀ i, i < (canvas_palette_synthesis_gradient_state c.palette f n).2.1 →
      palette_slot (canvas_set_game_colours c (some f) n).canvas.palette i =
        palette_slot (canvas_palette_synthesis_gradient_state c.palette f n).1 i) ∧
    (∀ i, (canvas_palette_synthesis_gradient_state c.palette f n).2.1 ≤ i → i < 256 →
      palette_slot (canvas_set_game_colours c (some f) n).canvas.palette i =
        some os_COLOUR_WHITE) := by
  have hred : canvas_set_game_colours c (some f) n =
      ⟨decide ((canvas_palette_synthesis c.palette f n).2.1 = CANVAS_MAX_PALETTE_ENTRIES),
        { c with palette := (canvas_palette_synthesis c.palette f n).1 },
        (canvas_palette_synthesis c.palette f n).2.2⟩ := by
    unfold canvas_set_game_colours
    rw [harea, hsprite, hpal]
    rfl
  obtain ⟨hs1, _, hs3, hs4, hs5, hs6, hs7, hs8⟩ :=
    canvas_palette_synthesis_spec c.palette f n hlen hn0 hn
  rw [hred]
  refine ⟨?_, hs3, hs4, hs5, hs6, hs7, hs8⟩
  show decide ((canvas_palette_synthesis c.palette f n).2.1 = CANVAS_MAX_PALETTE_ENTRIES) = true
  rw [hs1]
  rfl

/-- Witness for C1 at a concrete canvas, one game colour, n = 1: the call
succeeds and the last palette entry really is white. -/
theorem claim_C1_witness :
    (canvas_set_game_colours test_canvas_with_palette (some (fun _ => mkRat 1 2)) 1).ok =
      true ∧
    palette_slot (canvas_set_game_colours test_canvas_with_palette
      (some (fun _ => mkRat 1 2)) 1).canvas.palette 255 = some os_COLOUR_WHITE := by
  have h := claim_C1_set_game_colours_success_and_complete test_canvas_with_palette
    (fun _ => mkRat 1 2) 1 rfl rfl rfl (by decide) (by decide) (by decide)
  have hlt := h.2.2.2.2.1
  exact ⟨h.1, h.2.2.2.2.2.2 255 (by omega) (by omega)⟩

/-- C2: during gradient generation, when all three channels of the candidate
colour are nonzero, the candidate is appended to the palette (at the running
entry count, which advances by one) if and only if no already-placed palette
entry is within the 5 percent relative tolerance on all three channels, the
per-channel tolerance being 100 * abs(candidate - existing) / candidate. -/
theorem claim_C2_gradient_dedup_iff
    (rs gs bs re ge be : ℕ) (points step : ℤ) (p : SpritePalette) (pe : ℕ) (dz : Bool)
    (r g b : ℕ)
    (hr : r = canvas_gradient_channel rs re step points)
    (hg : g = canvas_gradient_channel gs ge step points)
    (hb : b = canvas_gradient_channel bs be step points)
    (hr0 : r ≠ 0) (hg0 : g ≠ 0) (hb0 : b ≠ 0) :
    ((canvas_gradient_step rs gs bs re ge be points (p, pe, dz) step).2.1 = pe + 1 ∧
     (canvas_gradient_step rs gs bs re ge be points (p, pe, dz) step).1 =
       canvas_set_palette_entry p pe (canvas_make_os_colour r g b)) ↔
    (∀ i, i < pe → canvas_colour_close p i r g b = false) := by
  subst hr
  subst hg
  subst hb
  rcases canvas_gradient_step_cases rs gs bs re ge be points p pe dz step with
    ⟨d1, hscan, hstep⟩ | ⟨d1, hscan, hstep⟩
  · rw [hstep]
    constructor
    · intro _ i hi
      exact (canvas_palette_scan_include p _ _ _ (List.range pe)).mp hscan i
        (List.mem_range.mpr hi)
    · intro _
      exact ⟨rfl, rfl⟩
  · rw [hstep]
    constructor
    · intro h
      exfalso
      have hcnt : pe = pe + 1 := h.1
      omega
    · intro hall
      exfalso
      have htrue : (canvas_palette_scan p (canvas_gradient_channel rs re step points)
          (canvas_gradient_channel gs ge step points)
          (canvas_gradient_channel bs be step points) (List.range pe)).1 = true :=
        (canvas_palette_scan_include p _ _ _ (List.range pe)).mpr
          (fun i hi => hall i (List.mem_range.mp hi))
      rw [hscan] at htrue
      exact Bool.false_ne_true htrue

/-- Witness for C2: the first black-to-white gradient candidate (25, 25, 25)
against a palette holding only black is appended. -/
theorem claim_C2_witness :
    (canvas_gradient_step 0 0 0 255 255 255 10 ([some 0], 1, false) 1).2.1 = 1 + 1 ∧
    (canvas_gradient_step 0 0 0 255 255 255 10 ([some 0], 1, false) 1).1 =
      canvas_set_palette_entry [some 0] 1 (canvas_make_os_colour 25 25 25) :=
  (claim_C2_gradient_dedup_iff 0 0 0 255 255 255 10 1 [some 0] 1 false 25 25 25
    (by decide) (by decide) (by decide) (by decide) (by decide) (by decide)).mpr
    (by decide)

/-- C3: a valid call to canvas_set_game_colours exists (canvas with palette,
n = 2, channels in [0,1]) in which the dedup tolerance computation divides by
zero: the pair gradient between (0, 0, 127) and (0, 0, 255) produces
candidates whose red and green channels are 0 while twelve palette entries
are already placed. -/
theorem claim_C3_division_by_zero :
    (canvas_set_game_colours test_canvas_with_palette
      (some test_colours_pair_zero_channels) 2).divZero = true := by
  decide

/-- Counterexample for C4: with 246 entries placed and 10 slots free, the
black-to-white gradient (10 candidate colours, the first of which, (25,25,25),
passes deduplication against the all-black palette) is dropped in its
entirety - nothing is added - because the guard requires points to be
strictly below the free space. -/
theorem claim_C4_counterexample :
    canvas_set_pallete_build_gradient test_palette_246_black 246
      os_COLOUR_BLACK os_COLOUR_WHITE 10 = (test_palette_246_black, 246, false) ∧
    (canvas_palette_scan test_palette_246_black 25 25 25 (List.range 246)).1 = true ∧
    (∀ i, i < 256 → 246 ≤ i → palette_slot test_palette_246_black i = none) := by
  decide

/-- C4 amended: capacity is enforced per whole gradient, not per colour: a
gradient of pts colours is dropped in its entirety whenever pts >= 256 -
palette_entries (or pts < 1, or the palette is already full), even when its
post-deduplication candidates would fit; when 1 <= pts < 256 -
palette_entries the gradient runs with no per-colour capacity check and the
entry count grows by at most pts, ending below 256. -/
theorem claim_C4_amended_whole_gradient_drop
    (p : SpritePalette) (pe : ℕ) (s f : ℕ) (pts : ℤ) :
    ((pts < 1 ∨ (256 : ℤ) - (pe : ℤ) ≤ pts ∨ 256 ≤ pe) →
      canvas_set_pallete_build_gradient p pe s f pts = (p, pe, false)) ∧
    (1 ≤ pts → pts < 256 - (pe : ℤ) →
      pe ≤ (canvas_set_pallete_build_gradient p pe s f pts).2.1 ∧
      (canvas_set_pallete_build_gradient p pe s f pts).2.1 ≤ pe + pts.toNat ∧
      (canvas_set_pallete_build_gradient p pe s f pts).2.1 < 256) := by
  constructor
  · intro hdrop
    unfold canvas_set_pallete_build_gradient
    by_cases h1 : CANVAS_MAX_PALETTE_ENTRIES ≤ pe
    · rw [if_pos h1]
    · rw [if_neg h1, if_pos ?_]
      unfold CANVAS_MAX_PALETTE_ENTRIES at h1 ⊢
      rcases hdrop with h | h | h
      · exact Or.inl h
      · exact Or.inr h
      · omega
  · intro hlo hhi
    have hpe : pe < 256 := by omega
    have hguard : canvas_set_pallete_build_gradient p pe s f pts =
        (canvas_gradient_steps pts).foldl
          (canvas_gradient_step
            (canvas_get_os_colour_red s) (canvas_get_os_colour_green s)
            (canvas_get_os_colour_blue s)
            (canvas_get_os_colour_red f) (canvas_get_os_colour_green f)
            (canvas_get_os_colour_blue f) pts)
          (p, pe, false) := by
      unfold canvas_set_pallete_build_gradient CANVAS_MAX_PALETTE_ENTRIES
      rw [if_neg (by omega), if_neg (by push_neg; omega)]
    rcases hfold : canvas_set_pallete_build_gradient p pe s f pts with ⟨q, k, dz⟩
    rw [hguard] at hfold
    obtain ⟨ha, hb, _, _, _, _⟩ := canvas_gradient_fold_spec _ _ _ _ _ _ _ _ _ _ _ _ _ _ hfold
    rw [canvas_gradient_steps_length] at hb
    refine ⟨ha, hb, ?_⟩
    show k < 256
    omega

/-- Witness for C4 (amended): with 250 entries placed, a 5-point gradient is
dropped whole; with 0 entries placed, a 10-point gradient stays within
bounds. -/
theorem claim_C4_witness :
    canvas_set_pallete_build_gradient test_palette_246_black 251
      os_COLOUR_BLACK os_COLOUR_WHITE 5 = (test_palette_246_black, 251, false) ∧
    (canvas_set_pallete_build_gradient (List.replicate 256 none) 0
      os_COLOUR_BLACK os_COLOUR_WHITE 10).2.1 < 256 :=
  ⟨(claim_C4_amended_whole_gradient_drop test_palette_246_black 251
      os_COLOUR_BLACK os_COLOUR_WHITE 5).1 (by decide),
   ((claim_C4_amended_whole_gradient_drop (List.replicate 256 none) 0
      os_COLOUR_BLACK os_COLOUR_WHITE 10).2 (by decide) (by decide)).2.2⟩

theorem canvas_quantize_channel_eq_floor (q : ℚ) (h : 0 ≤ q) :
    canvas_quantize_channel q = (⌊q * 255⌋).toNat := by
  unfold canvas_quantize_channel
  have hden : ((q.den : ℕ) : ℚ) ≠ 0 := Nat.cast_ne_zero.mpr q.den_nz
  have hqden : q * (q.den : ℚ) = (q.num : ℚ) := by
    exact_mod_cast Rat.mul_den_eq_num q
  have h1 : q * 255 = ((q.num * 255 : ℤ) : ℚ) / ((q.den : ℕ) : ℚ) := by
    rw [eq_div_iff hden]
    push_cast
    linear_combination (255 : ℚ) * hqden
  rw [h1, Rat.floor_intCast_div_natCast]
  congr 1
  exact Int.tdiv_eq_ediv
    (mul_nonneg (Rat.num_nonneg.mpr h) (by norm_num)) (Int.ofNat_nonneg _)

theorem spec_round_channel_eq (q : ℚ) :
    spec_round_channel q = ⌊q * 255 + 1 / 2⌋ := by
  unfold spec_round_channel
  have hden : ((2 * q.den : ℕ) : ℚ) ≠ 0 := Nat.cast_ne_zero.mpr (by
    have := q.den_nz
    omega)
  have hqden : q * (q.den : ℚ) = (q.num : ℚ) := by
    exact_mod_cast Rat.mul_den_eq_num q
  have h1 : q * 255 + 1 / 2 =
      ((2 * 255 * q.num + (q.den : ℤ) : ℤ) : ℚ) / ((2 * q.den : ℕ) : ℚ) := by
    rw [eq_div_iff hden]
    push_cast
    linear_combination (2 * 255 : ℚ) * hqden
  rw [h1, Rat.floor_intCast_div_natCast]
  push_cast
  norm_num

/-- Counterexample for C5: for the game colour (0.5, 0.5, 0.5) the palette
entry written is the truncated (127, 127, 127), not the rounded
(128, 128, 128) the claim requires. -/
theorem claim_C5_counterexample :
    palette_slot (canvas_set_game_colours test_canvas_with_palette
      (some (fun _ => mkRat 1 2)) 1).canvas.palette 0 =
      some (canvas_make_os_colour 127 127 127) ∧
    spec_round_channel (mkRat 1 2) = 128 ∧
    palette_slot (canvas_set_game_colours test_canvas_with_palette
      (some (fun _ => mkRat 1 2)) 1).canvas.palette 0 ≠
      some (canvas_make_os_colour (spec_round_channel (mkRat 1 2)).toNat
        (spec_round_channel (mkRat 1 2)).toNat (spec_round_channel (mkRat 1 2)).toNat) := by
  decide

/-- C5 amended: each supplied game-colour channel c in [0,1] is converted to
its 8-bit palette value by truncation, i.e. floor(c x 255) - not by
rounding - and entries [0, n) hold exactly these truncated quantizations. -/
theorem claim_C5_amended_truncated_quantization
    (c : canvas_block) (f : ℕ → ℚ) (n : ℤ)
    (harea : c.hasSpriteArea = true) (hsprite : c.spriteExists = true)
    (hpal : c.hasPalette = true) (hlen : c.palette.length = 256)
    (hn0 : 0 ≤ n) (hn : n < 256)
    (hrange : ∀ j, j < 3 * n.toNat → 0 ≤ f j ∧ f j ≤ 1) :
    ∀ i, i < n.toNat →
      palette_slot (canvas_set_game_colours c (some f) n).canvas.palette i =
        some (canvas_make_os_colour
          ((⌊f (i * 3) * 255⌋).toNat)
          ((⌊f (i * 3 + 1) * 255⌋).toNat)
          ((⌊f (i * 3 + 2) * 255⌋).toNat)) := by
  have hred : canvas_set_game_colours c (some f) n =
      ⟨decide ((canvas_palette_synthesis c.palette f n).2.1 = CANVAS_MAX_PALETTE_ENTRIES),
        { c with palette := (canvas_palette_synthesis c.palette f n).1 },
        (canvas_palette_synthesis c.palette f n).2.2⟩ := by
    unfold canvas_set_game_colours
    rw [harea, hsprite, hpal]
    rfl
  obtain ⟨_, _, _, hs4, _⟩ := canvas_palette_synthesis_spec c.palette f n hlen hn0 hn
  rw [hred]
  intro i hi
  rw [hs4 i hi]
  unfold canvas_game_colour
  rw [canvas_quantize_channel_eq_floor _ (hrange (i * 3) (by omega)).1,
    canvas_quantize_channel_eq_floor _ (hrange (i * 3 + 1) (by omega)).1,
    canvas_quantize_channel_eq_floor _ (hrange (i * 3 + 2) (by omega)).1]

/-- Witness for C5 (amended) at one concrete colour (0.5, 0.5, 0.5). -/
theorem claim_C5_witness :
    palette_slot (canvas_set_game_colours test_canvas_with_palette
      (some (fun _ => mkRat 1 2)) 1).canvas.palette 0 =
      some (canvas_make_os_colour
        ((⌊(mkRat 1 2) * 255⌋).toNat) ((⌊(mkRat 1 2) * 255⌋).toNat)
        ((⌊(mkRat 1 2) * 255⌋).toNat)) :=
  claim_C5_amended_truncated_quantization test_canvas_with_palette
    (fun _ => mkRat 1 2) 1 rfl rfl rfl (by decide) (by decide) (by decide)
    (by
      intro j hj
      refine ⟨?_, ?_⟩
      · show (0 : ℚ) ≤ mkRat 1 2
        decide
      · show (mkRat 1 2 : ℚ) ≤ 1
        decide)
    0 (by decide)

/-- Counterexample for C6: at width 1, height 1, no palette, the code
allocates 16 + 44 + 4 = 64 bytes (stride (1+6) & ~3 = 4), not the 68 bytes
the claim's round-up stride (8) would give. -/
theorem claim_C6_counterexample :
    canvas_area_size 1 1 false = 64 ∧
    CANVAS_AREA_HEADER_SIZE + CANVAS_SPRITE_HEADER_SIZE +
      1 * spec_round_up_to_word (1 + 6) = 68 ∧
    canvas_area_size 1 1 false ≠
      CANVAS_AREA_HEADER_SIZE + CANVAS_SPRITE_HEADER_SIZE +
        1 * spec_round_up_to_word (1 + 6) := by
  decide

/-- C6 amended: for width > 0 and height > 0, canvas_configure_area sizes
the buffer as area header (16) + sprite header (44) + palette (2048, when
requested) + height x stride, where the stride is (width + 6) rounded DOWN
to a multiple of 4 (the largest multiple of 4 not exceeding width + 6). -/
theorem claim_C6_amended_area_size
    (c : canvas_block) (width height : ℤ) (pal : Bool)
    (hw : 0 < width) (hh : 0 < height) :
    canvas_area_size width height pal =
      CANVAS_AREA_HEADER_SIZE + CANVAS_SPRITE_HEADER_SIZE +
        (if pal then CANVAS_PALETTE_SIZE else 0) +
        canvas_word_align_down (width + 6) * height ∧
    4 ∣ canvas_word_align_down (width + 6) ∧
    canvas_word_align_down (width + 6) ≤ width + 6 ∧
    width + 6 < canvas_word_align_down (width + 6) + 4 ∧
    (canvas_configure_area c width height pal true true).2.spriteAreaSize =
      canvas_area_size width height pal := by
  have hbase : (if 0 < width ∧ 0 < height then
      CANVAS_AREA_HEADER_SIZE + CANVAS_SPRITE_HEADER_SIZE +
        canvas_word_align_down (width + 6) * height
      else CANVAS_SPRITE_HEADER_SIZE) =
      CANVAS_AREA_HEADER_SIZE + CANVAS_SPRITE_HEADER_SIZE +
        canvas_word_align_down (width + 6) * height := if_pos ⟨hw, hh⟩
  have harea : canvas_area_size width height pal =
      (if pal then CANVAS_PALETTE_SIZE else 0) +
        (CANVAS_AREA_HEADER_SIZE + CANVAS_SPRITE_HEADER_SIZE +
          canvas_word_align_down (width + 6) * height) := by
    unfold canvas_area_size
    rw [hbase]
    cases pal
    · norm_num
    · norm_num
      ring
  have halign4 : 4 ∣ canvas_word_align_down (width + 6) := by
    unfold canvas_word_align_down
    omega
  have halignle : canvas_word_align_down (width + 6) ≤ width + 6 := by
    unfold canvas_word_align_down
    omega
  have haligngt : width + 6 < canvas_word_align_down (width + 6) + 4 := by
    unfold canvas_word_align_down
    omega
  refine ⟨by rw [harea]; ring, halign4, halignle, haligngt, ?_⟩
  have hsz : canvas_area_size width height pal ≠ CANVAS_AREA_HEADER_SIZE := by
    rw [harea]
    have hpos : 0 < canvas_word_align_down (width + 6) * height := by
      apply mul_pos
      · unfold canvas_word_align_down
        omega
      · exact hh
    generalize hA : canvas_word_align_down (width + 6) * height = A at hpos
    unfold CANVAS_AREA_HEADER_SIZE CANVAS_SPRITE_HEADER_SIZE CANVAS_PALETTE_SIZE
    cases pal
    · norm_num
      omega
    · norm_num
      omega
  unfold canvas_configure_area
  rw [if_neg (by simp), if_neg hsz, if_neg (by simp)]
  cases pal
  · rfl
  · rfl

/-- Witness for C6 (amended) at width 5, height 3, palette included:
the stride is 8 and the allocated size 16 + 44 + 2048 + 24 = 2132. -/
theorem claim_C6_witness :
    canvas_area_size 5 3 true =
      CANVAS_AREA_HEADER_SIZE + CANVAS_SPRITE_HEADER_SIZE +
        (if true then CANVAS_PALETTE_SIZE else 0) +
        canvas_word_align_down (5 + 6) * 3 ∧
    (canvas_configure_area canvas_create_instance 5 3 true true true).2.spriteAreaSize =
      canvas_area_size 5 3 true :=
  ⟨(claim_C6_amended_area_size canvas_create_instance 5 3 true
      (by decide) (by decide)).1,
   (claim_C6_amended_area_size canvas_create_instance 5 3 true
      (by decide) (by decide)).2.2.2.2⟩

/-- C7: canvas_start_redirection on a canvas whose redirection is already
active fails and returns the canvas completely unchanged (so redirection
stays active); canvas_stop_redirection on a canvas whose redirection is
inactive fails and returns the canvas completely unchanged, whatever the OS
outcome parameters. -/
theorem claim_C7_redirection_no_nesting (c : canvas_block)
    (ctx : Option (ℤ × ℤ × ℤ × ℤ)) (os_ok : Bool) :
    (c.redirection_active = true → canvas_start_redirection c ctx = (false, c)) ∧
    (c.redirection_active = false → canvas_stop_redirection c os_ok = (false, c)) := by
  constructor
  · intro h
    unfold canvas_start_redirection
    split_ifs with h1 h2 h3
    · rfl
    · rfl
    · rfl
    · rfl
  · intro h
    unfold canvas_stop_redirection
    split_ifs with h1 h2 h3
    · rfl
    · rfl
    · rfl
    · rfl

/-- Witness for C7: a concrete canvas with active redirection rejects start;
a concrete idle canvas rejects stop. -/
theorem claim_C7_witness :
    canvas_start_redirection test_canvas_redirecting (some (1, 2, 3, 4)) =
      (false, test_canvas_redirecting) ∧
    canvas_stop_redirection test_canvas_idle true = (false, test_canvas_idle) :=
  ⟨(claim_C7_redirection_no_nesting test_canvas_redirecting (some (1, 2, 3, 4)) true).1 rfl,
   (claim_C7_redirection_no_nesting test_canvas_idle (some (1, 2, 3, 4)) true).2 rfl⟩

/-- C8: after blitter_store_from_canvas records position (x, y), a
blitter_paint_to_canvas call with the sentinel -1 for both coordinates (and
no intervening store) issues exactly the plot request canvas_put_sprite
would issue at the recorded (x, y); in particular, when the blitter's canvas
has its sprite, it paints at top-left (x, y). -/
theorem claim_C8_blitter_from_saved (b : blitter_block) (cv : canvas_block) (x y : ℤ)
    (hcv : b.canvas = some cv) :
    blitter_paint_to_canvas (blitter_store_from_canvas b x y).2 (-1) (-1) =
      canvas_put_sprite cv x y ∧
    (cv.hasSpriteArea = true → cv.spriteExists = true →
      blitter_paint_to_canvas (blitter_store_from_canvas b x y).2 (-1) (-1) =
        some (x, y - CANVAS_PIXEL_SIZE * (cv.sizeY - 1))) := by
  have hstore : (blitter_store_from_canvas b x y).2 = { b with posX := x, posY := y } := by
    unfold blitter_store_from_canvas
    rw [hcv]
  have hpaint : blitter_paint_to_canvas (blitter_store_from_canvas b x y).2 (-1) (-1) =
      canvas_put_sprite cv x y := by
    rw [hstore]
    unfold blitter_paint_to_canvas
    have hcv2 : ({ b with posX := x, posY := y } : blitter_block).canvas = some cv := hcv
    rw [hcv2]
    simp
  refine ⟨hpaint, ?_⟩
  intro h1 h2
  rw [hpaint]
  unfold canvas_put_sprite
  rw [if_pos ⟨h1, h2⟩]

/-- Witness for C8: a concrete blitter stored at (10, 20) paints back at
(10, 20). -/
theorem claim_C8_witness :
    blitter_paint_to_canvas (blitter_store_from_canvas test_blitter 10 20).2 (-1) (-1) =
      some (10, 20 - CANVAS_PIXEL_SIZE * ((4 : ℤ) - 1)) :=
  (claim_C8_blitter_from_saved test_blitter
    { canvas_create_instance with
        hasSpriteArea := true, spriteExists := true, sizeX := 6, sizeY := 4 }
    10 20 rfl).2 rfl rfl

/-- Counterexample for C9: with the sprite-area allocation inside
canvas_configure_area failing, the private canvas cannot be configured (the
configure call returns false), yet blitter_create still returns a blitter
and leaves it linked in the set, contradicting the claimed cleanup. -/
theorem claim_C9_counterexample :
    (canvas_configure_area canvas_create_instance 5 5 false false true).1 = false ∧
    (blitter_create [] 5 5 true true false true).1.isSome = true ∧
    (blitter_create [] 5 5 true true false true).2.length = 1 := by
  decide

/-- C9 amended: blitter_create fails and removes the partially-created entry
from the set when the blitter allocation or the private canvas instance
allocation fails; the result of configuring the canvas to the requested size
is ignored, so even a failed configuration leaves the new blitter in the set
and returns it. -/
theorem claim_C9_amended_create_cleanup
    (set : List blitter_block) (width height : ℤ) (cm co : Bool) :
    (blitter_create set width height false true cm co = (none, set)) ∧
    (blitter_create set width height true false cm co = (none, set)) ∧
    (blitter_create set width height true true cm co =
      (some { canvas := some (canvas_configure_area canvas_create_instance
                width height false cm co).2, posX := 0, posY := 0 },
        { canvas := some (canvas_configure_area canvas_create_instance
            width height false cm co).2, posX := 0, posY := 0 } :: set)) := by
  refine ⟨rfl, rfl, rfl⟩

/-- C10: once appending a path element would exceed the 256-word buffer the
path is marked invalid; it stays invalid across any sequence of subsequent
add/close/end operations; while invalid, game_draw_plot_path and
game_draw_fill_path perform no drawing and return no error (modelled as
`none`); and game_draw_start_path resets the path to valid. -/
theorem claim_C10_path_overflow_invalidates
    (s : game_draw_state) (sz : ℕ) (ops : List game_draw_op) (w : ℤ)
    (hover : GAME_DRAW_BUFFER_LENGTH < s.path_length + sz) :
    (game_draw_get_new_element s sz).2.valid_path = false ∧
    (ops.foldl game_draw_apply (game_draw_get_new_element s sz).2).valid_path = false ∧
    game_draw_plot_path (ops.foldl game_draw_apply (game_draw_get_new_element s sz).2) w =
      none ∧
    game_draw_fill_path (ops.foldl game_draw_apply (game_draw_get_new_element s sz).2) w =
      none ∧
    (game_draw_start_path
      (ops.foldl game_draw_apply (game_draw_get_new_element s sz).2)).valid_path = true := by
  have helem : ∀ (t : game_draw_state) (k : ℕ), t.valid_path = false →
      ((game_draw_get_new_element t k).2).valid_path = false := by
    intro t k ht
    unfold game_draw_get_new_element
    split
    · rfl
    · exact ht
  have h1 : (game_draw_get_new_element s sz).2.valid_path = false := by
    unfold game_draw_get_new_element
    rw [if_pos hover]
  have hpres : ∀ (t : game_draw_state) (op : game_draw_op), t.valid_path = false →
      (game_draw_apply t op).valid_path = false := by
    intro t op ht
    cases op with
    | move x y =>
      show (game_draw_add_move t x y).2.valid_path = false
      unfold game_draw_add_move
      rcases hm : (game_draw_get_new_element t 3).1 with _ | v
      · simp only [hm]
        exact helem t 3 ht
      · simp only [hm]
        exact helem t 3 ht
    | line x y =>
      show (game_draw_add_line t x y).2.valid_path = false
      unfold game_draw_add_line
      rcases hm : (game_draw_get_new_element t 3).1 with _ | v
      · simp only [hm]
        exact helem t 3 ht
      · simp only [hm]
        exact helem t 3 ht
    | close =>
      show (game_draw_close_subpath t).2.valid_path = false
      unfold game_draw_close_subpath
      rcases hm : (game_draw_get_new_element t 1).1 with _ | v
      · simp only [hm]
        exact helem t 1 ht
      · simp only [hm]
        exact helem t 1 ht
    | finish =>
      show (game_draw_end_path t).2.valid_path = false
      unfold game_draw_end_path
      rcases hm : (game_draw_get_new_element t 2).1 with _ | v
      · simp only [hm]
        exact helem t 2 ht
      · simp only [hm]
        exact helem t 2 ht
  have h2 : (ops.foldl game_draw_apply (game_draw_get_new_element s sz).2).valid_path =
      false :=
    foldl_preserves (fun t op ht => hpres t op ht) ops _ h1
  refine ⟨h1, h2, ?_, ?_, rfl⟩
  · unfold game_draw_plot_path
    rw [if_pos h2]
  · unfold game_draw_fill_path
    rw [if_pos h2]

/-- Witness for C10: a path of length 255 overflows on a 3-word element and
the draw requests are skipped after two further operations. -/
theorem claim_C10_witness :
    (game_draw_get_new_element ⟨[], 255, true⟩ 3).2.valid_path = false ∧
    ([game_draw_op.close, game_draw_op.move 1 2].foldl game_draw_apply
      (game_draw_get_new_element ⟨[], 255, true⟩ 3).2).valid_path = false ∧
    game_draw_plot_path ([game_draw_op.close, game_draw_op.move 1 2].foldl game_draw_apply
      (game_draw_get_new_element ⟨[], 255, true⟩ 3).2) 5 = none ∧
    game_draw_fill_path ([game_draw_op.close, game_draw_op.move 1 2].foldl game_draw_apply
      (game_draw_get_new_element ⟨[], 255, true⟩ 3).2) 5 = none ∧
    (game_draw_start_path ([game_draw_op.close, game_draw_op.move 1 2].foldl game_draw_apply
      (game_draw_get_new_element ⟨[], 255, true⟩ 3).2)).valid_path = true :=
  claim_C10_path_overflow_invalidates ⟨[], 255, true⟩ 3
    [game_draw_op.close, game_draw_op.move 1 2] 5 (by decide)

end Puzzles
